import Mathlib

/-
Verification of the query-routing and multi-source retrieval engine of the
pii-fund-rag repository, as a shallow embedding in Lean 4.

Embedding conventions:
- External collaborators (the PII service, the LLM classifier, the SQL
  generator and database, the two search indexes, the embedding service and
  the synthesis LLM) are modelled as oracle functions packaged in an `Env`
  structure; the orchestration code under src/src is translated statement by
  statement against that environment.
- Every orchestration function returns its value paired with a trace of
  collaborator invocations (`List CallEvent`), so that claims about which
  collaborators run, and how often, are statable.
- Python floats (confidence scores, relevance scores) are embedded as
  rationals; Python strings as Lean Strings, with list-of-char helpers for
  the operations (lower-casing, substring test, slicing) whose library
  versions do not reduce in the kernel.
- Concurrency in the fan-out strategies is embedded by its sequential
  semantics: each branch is a pure function of the shared environment, so
  branch arrival order cannot affect any modelled value.  Wall-clock
  timeouts are not modelled.
-/

/-- Python `pat in s` substring test on character lists. -/
def charSeqIn (pat : List Char) : List Char → Bool
  | [] => pat.isEmpty
  | c :: rest => pat.isPrefixOf (c :: rest) || charSeqIn pat rest

/-- Python `pat in s` on strings. -/
def strIn (pat s : String) : Bool :=
  charSeqIn pat.toList s.toList

/-- Python `s.lower()`, restricted to the ASCII queries the router sees. -/
def pyLower (s : String) : String :=
  String.mk (s.toList.map Char.toLower)

/-- Python slice `s[:n]`. -/
def pyTake (s : String) (n : Nat) : String :=
  String.mk (s.toList.take n)

/-- Python `not text or not text.strip()`: the text is empty or whitespace. -/
def allWhitespace (s : String) : Bool :=
  s.toList.all Char.isWhitespace

/-
PII filter model, from src/src/pii_filter.py.
-/

/-- Banking-relevant PII categories (pii_filter.py lines 20-35). -/
def BANKING_PII_CATEGORIES : List String := [
  "Person",
  "PersonType",
  "PhoneNumber",
  "Email",
  "Address",
  "USBankAccountNumber",
  "CreditCardNumber",
  "USSocialSecurityNumber",
  "USDriversLicenseNumber",
  "USPassportNumber",
  "USIndividualTaxpayerIdentification",
  "InternationalBankingAccountNumber",
  "SWIFTCode",
  "IPAddress"
]

/-- Detected PII entity (pii_filter.py `PiiEntity`).  The raw Azure entity
carries the same fields (`confidenceScore` maps to `confidence_score`), so a
single structure serves for both the service reply and the filtered result. -/
structure PiiEntity where
  text : String
  category : String
  offset : Nat := 0
  length : Nat := 0
  confidence_score : Rat
deriving Repr, DecidableEq

/-- Result of a PII check (pii_filter.py `PiiCheckResult`). -/
structure PiiCheckResult where
  has_pii : Bool
  entities : List PiiEntity
  redacted_text : Option String := none
  error : Option String := none
deriving Repr, DecidableEq

/-- One document of the Azure PII reply (entities plus redacted text). -/
structure AzureDoc where
  entities : List PiiEntity := []
  redactedText : Option String := none
deriving Repr, DecidableEq

/-- Parsed body of a successful Azure PII service response. -/
structure AzureReply where
  kind : String
  documents : List AzureDoc
deriving Repr, DecidableEq

/-- Outcome of the HTTP round-trip to the PII service, covering each branch of
the try/except in pii_filter.py check (lines 107-179). -/
inductive PiiServiceOutcome where
  | timeout
  | connectionError
  | otherError (msg : String)
  | httpError (status : Nat) (body : String)
  | reply (data : AzureReply)
deriving Repr, DecidableEq

namespace PiiFilter

/-- Default confidence threshold of PiiFilter (pii_filter.py line 63). -/
def default_confidence_threshold : Rat := 4 / 5

/-- pii_filter.py `PiiFilter.check` (lines 94-179): empty or whitespace text is
never flagged; every exceptional or malformed service outcome yields a
not-blocked result carrying an error note; a well-formed reply is filtered to
entities at or above the confidence threshold whose category is
banking-relevant, and the text is flagged exactly when that filtered list is
non-empty. -/
def check (confidence_threshold : Rat) (text : String)
    (outcome : PiiServiceOutcome) : PiiCheckResult :=
  if allWhitespace text then
    { has_pii := false, entities := [] }
  else
    match outcome with
    | PiiServiceOutcome.timeout =>
        { has_pii := false, entities := [], error := some "PII check timed out" }
    | PiiServiceOutcome.connectionError =>
        { has_pii := false, entities := [], error := some "PII service unavailable" }
    | PiiServiceOutcome.otherError msg =>
        { has_pii := false, entities := [], error := some msg }
    | PiiServiceOutcome.httpError status body =>
        { has_pii := false, entities := [],
          error := some ("PII check failed: " ++ toString status ++ " " ++ body) }
    | PiiServiceOutcome.reply data =>
        if data.kind ≠ "PiiEntityRecognitionResults" then
          { has_pii := false, entities := [], error := some "Unexpected response format" }
        else
          match data.documents with
          | [] => { has_pii := false, entities := [] }
          | doc :: _ =>
            let entities := doc.entities.filter (fun e =>
              decide (confidence_threshold ≤ e.confidence_score)
                && BANKING_PII_CATEGORIES.contains e.category)
            { has_pii := decide (0 < entities.length)
              entities := entities
              redacted_text := doc.redactedText }

/-- User-facing category labels (pii_filter.py lines 211-226). -/
def category_names : List (String × String) := [
  ("Person", "personal name"),
  ("PersonType", "personal"),
  ("PhoneNumber", "phone number"),
  ("Email", "email address"),
  ("Address", "address"),
  ("USBankAccountNumber", "bank account number"),
  ("CreditCardNumber", "credit card"),
  ("USSocialSecurityNumber", "Social Security Number"),
  ("USDriversLicenseNumber", "driver\x27s license"),
  ("USPassportNumber", "passport number"),
  ("USIndividualTaxpayerIdentification", "tax ID"),
  ("InternationalBankingAccountNumber", "IBAN"),
  ("SWIFTCode", "SWIFT code"),
  ("IPAddress", "IP address")
]

/-- pii_filter.py `format_warning` (lines 209-240).  Python iterates a set of
labels, whose order is unspecified; the embedding deduplicates keeping one
occurrence per label, which fixes one admissible order. -/
def format_warning (entities : List PiiEntity) : String :=
  let categories :=
    (entities.map (fun e => ((category_names.lookup e.category).getD (pyLower e.category)))).dedup
  if categories.isEmpty then
    "Your message contains sensitive information that cannot be processed."
  else if categories.length = 1 then
    "Your message contains " ++ categories.headD "" ++
      " information which cannot be processed for security reasons."
  else
    "Your message contains " ++ ", ".intercalate categories.dropLast ++ " and " ++
      categories.getLastD "" ++
      " information which cannot be processed for security reasons."

end PiiFilter

/-
Query router model, from src/src/query_router.py.
-/

/-- Fields of the routing reply dict (the JSON object the classifier LLM
returns, query_router.py lines 69-75); every field may be absent. -/
structure RoutingDecision where
  route : Option String := none
  reasoning : Option String := none
  sql_hint : Option String := none
  raptor_topics : Option (List String) := none
deriving Repr, DecidableEq

/-- A reply from the classifier LLM: either a JSON object (with whatever
subset of fields it chose to emit) or text that json.loads cannot parse. -/
inductive LlmRouteReply where
  | unparseable (raw : String)
  | parsed (fields : RoutingDecision)
deriving Repr, DecidableEq

namespace QueryRouter

/-- query_router.py `QueryRouter.route` (lines 90-117): json.loads raises on an
unparseable reply and nothing in the function catches it, so that case is an
error that propagates to the caller; a parsed reply has its `route` field
defaulted to HYBRID and its `reasoning` field defaulted to a fixed
placeholder. -/
def route (reply : LlmRouteReply) : Except String RoutingDecision :=
  match reply with
  | LlmRouteReply.unparseable _ => Except.error "json.decoder.JSONDecodeError"
  | LlmRouteReply.parsed result =>
      Except.ok { result with
        route := some (result.route.getD "HYBRID")
        reasoning := some (result.reasoning.getD "Default routing") }

/-- query_router.py `QueryRouter.quick_route` (lines 119-172), the keyword
heuristic, translated clause by clause with its exact keyword lists and
check order (macro, then fund/conditional refinement, then SQL, then
semantic, then the fund-domain default). -/
def quick_route (query : String) : String :=
  let query_lower := pyLower query
  let raptor_keywords := ["imf", "inflation", "economic outlook", "interest rate forecast",
    "gdp", "growth forecast", "monetary policy", "fed", "central bank",
    "recession", "emerging market outlook", "world economic"]
  if raptor_keywords.any (fun kw => strIn kw query_lower) then
    let fund_keywords := ["fund", "invest", "portfolio", "position", "best", "recommend"]
    if fund_keywords.any (fun kw => strIn kw query_lower) then
      if ["if", "given", "based on", "considering"].any (fun c => strIn c query_lower) then
        "CHAIN"
      else "HYBRID"
    else "RAPTOR"
  else
    let sql_keywords := ["top", "largest", "smallest", "compare", "list", "show me",
      "which funds hold", "cusip", "isin", "ticker",
      "how many", "total", "sum", "average", "count",
      "greater than", "less than", "between",
      "dv01", "interest rate risk", "maturity", "holdings of"]
    if sql_keywords.any (fun kw => strIn kw query_lower) then "SQL"
    else
      let semantic_keywords := ["similar to", "like", "resemble", "style",
        "conservative", "aggressive", "growth-oriented", "income-focused",
        "tell me about", "describe", "what kind of"]
      if semantic_keywords.any (fun kw => strIn kw query_lower) then "SEMANTIC"
      else if ["fund", "etf", "bond", "equity", "stock"].any (fun kw => strIn kw query_lower) then
        "SQL"
      else "HYBRID"

end QueryRouter

/-
Unified retriever model, from src/src/unified_retriever.py.
-/

/-- Citation for a source used in the answer (unified_retriever.py lines
50-57). -/
structure Citation where
  source_type : String
  identifier : String
  title : String
  content_preview : String := ""
  score : Rat := 0
deriving Repr, DecidableEq

/-- One row returned by the structured-query engine.  The engine returns
dicts; the fields the orchestrator reads are modelled explicitly (absent key
and SQL NULL both map to `none`), `rowRepr` stands for Python str(row), and
`errorMsg` carries the error entry of the row that query_sql fabricates when
execution raises (line 238). -/
structure SqlRow where
  accession_number : Option String := none
  series_name : Option String := none
  fund_name : Option String := none
  rowRepr : String := ""
  errorMsg : Option String := none
deriving Repr, DecidableEq

/-- One document from the semantic fund index, with the fields selected at
unified_retriever.py lines 265-266 (absent keys modelled with the defaults
query_semantic applies). -/
structure SemDoc where
  fund_name : String := ""
  manager_name : String := ""
  total_assets : Int := 0
  fund_type : String := ""
  content : String := ""
  top_holdings_text : String := ""
  accession_number : String := ""
  score : Rat := 0
deriving Repr, DecidableEq

/-- One document from the RAPTOR macro index, with the fields selected at
unified_retriever.py line 331 (absent keys modelled with the defaults
query_raptor applies). -/
structure RapDoc where
  id : String := ""
  doc_id : String := ""
  level : Nat := 0
  kind : String := ""
  raw : String := ""
  score : Rat := 0
deriving Repr, DecidableEq

/-- Result from unified retrieval (unified_retriever.py lines 74-97), with the
dataclass field defaults. -/
structure RetrievalResult where
  answer : String
  route : String
  reasoning : String
  citations : List Citation := []
  sql_results : Option (List SqlRow) := none
  semantic_results : Option (List SemDoc) := none
  raptor_results : Option (List RapDoc) := none
  sql_query : Option String := none
  pii_blocked : Bool := false
  pii_warning : Option String := none
deriving Repr, DecidableEq

/-- One collaborator invocation, recorded in the trace every orchestration
function returns alongside its value. -/
inductive CallEvent where
  | piiCheck
  | classify
  | embed
  | sqlGen
  | sqlExec
  | fundSearch
  | raptorSearch
  | criteriaLlm
  | synth
deriving Repr, DecidableEq

/-- Number of embedding-service invocations in a trace. -/
def countEmbed (tr : List CallEvent) : Nat :=
  tr.countP (fun e => match e with | CallEvent.embed => true | _ => false)

/-- The context dict assembled for answer synthesis by each route executor.
Each constructor carries the data the corresponding Python route passes,
with the truncations it applies; the rendering of that data into the prompt
string is part of the synthesis collaborator. -/
inductive SynthCtx where
  | sqlCtx (sql_results : List SqlRow)
  | semanticCtx (semantic_results : List SemDoc)
  | raptorCtx (raptor_results : List String)
  | semRaptorCtx (semantic_results : List SemDoc) (macro_context : List String)
  | hybridCtx (sql_results : List SqlRow) (semantic_context : List String)
      (macro_context : List String)
  | chainCtx (macro_context : String) (derived_criteria : String)
      (sql_results : List SqlRow) (semantic_matches : List String)
deriving Repr

/-- The external collaborators and configuration of one UnifiedRetriever
instance.  Each field is the pure oracle behind one outbound call; the
SQLite configuration is modelled (use_postgres false, under which the
schema-prefix rewriting of lines 203-213 is a no-op). -/
structure Env where
  piiEnabled : Bool
  confidence_threshold : Rat
  piiOutcome : String → PiiServiceOutcome
  llmReply : String → LlmRouteReply
  sqlGenerate : String → String
  sqlExec : String → Except String (List SqlRow)
  fundSearch : String → List Rat → Nat → List SemDoc
  has_raptor : Bool
  raptorSearchE : String → List Rat → Nat → Except String (List RapDoc)
  embedFn : String → List Rat
  synthesize : String → SynthCtx → String → String
  criteriaLlm : String → String → String

namespace UnifiedRetriever

/-- unified_retriever.py `get_embedding` (lines 175-181): one embedding-service
call on the text truncated to 8000 characters. -/
def get_embedding (env : Env) (text : String) : List Rat × List CallEvent :=
  (env.embedFn (pyTake text 8000), [CallEvent.embed])

/-- Citation built for one structured row (unified_retriever.py lines
225-233): identifier falls back from an empty accession number to a synthetic
row id, title falls back from series name to fund name to a numbered
placeholder. -/
def mkSqlCitation (i : Nat) (row : SqlRow) : Citation :=
  let accession := row.accession_number.getD ""
  { source_type := "SQL"
    identifier := if accession = "" then "row_" ++ toString i else accession
    title := row.series_name.getD (row.fund_name.getD ("Result " ++ toString (i + 1)))
    content_preview := pyTake row.rowRepr 100 }

/-- unified_retriever.py `query_sql` (lines 187-238): generate SQL from the
question (with the optional hint appended), execute it, and build at most ten
citations from the leading rows; an execution error is absorbed into a single
error row with no citations. -/
def query_sql (env : Env) (query : String) (sql_hint : Option String) :
    (List SqlRow × String × List Citation) × List CallEvent :=
  let enhanced_query := match sql_hint with
    | some hint => query ++ "\nHint: " ++ hint
    | none => query
  let sql := env.sqlGenerate enhanced_query
  let (results, citations) := match env.sqlExec sql with
    | Except.ok rows =>
        (rows, (rows.take 10).enum.map (fun p => mkSqlCitation p.fst p.snd))
    | Except.error e => ([{ errorMsg := some e : SqlRow }], [])
  ((results, sql, citations), [CallEvent.sqlGen, CallEvent.sqlExec])

/-- Citation built for one semantic document (unified_retriever.py lines
284-290). -/
def mkSemanticCitation (r : SemDoc) : Citation :=
  { source_type := "SEMANTIC"
    identifier := r.accession_number
    title := r.fund_name
    content_preview := pyTake r.content 100
    score := r.score }

/-- unified_retriever.py `query_semantic` (lines 240-292): embed the query
unless a precomputed vector is supplied, then search the fund index. -/
def query_semantic (env : Env) (query : String) (top : Nat)
    (embedding : Option (List Rat)) : (List SemDoc × List Citation) × List CallEvent :=
  let (emb, tr0) := match embedding with
    | none => get_embedding env query
    | some e => (e, [])
  let results := env.fundSearch query emb top
  ((results, results.map mkSemanticCitation), tr0 ++ [CallEvent.fundSearch])

/-- Citation built for one RAPTOR document (unified_retriever.py lines
348-354). -/
def mkRaptorCitation (r : RapDoc) : Citation :=
  { source_type := "RAPTOR"
    identifier := r.doc_id
    title := "IMF WEO (" ++ r.kind ++ ", L" ++ toString r.level ++ ")"
    content_preview := pyTake r.raw 100
    score := r.score }

/-- unified_retriever.py `query_raptor` (lines 294-360): empty when the RAPTOR
index is unconfigured; otherwise the query is topic-augmented, embedded unless
a vector is supplied, and searched, with any search error absorbed into an
empty result. -/
def query_raptor (env : Env) (query : String) (topics : List String) (top : Nat)
    (embedding : Option (List Rat)) : (List RapDoc × List Citation) × List CallEvent :=
  if env.has_raptor then
    let search_query := if topics.isEmpty then query
      else query ++ " " ++ " ".intercalate topics
    let (emb, tr0) := match embedding with
      | none => get_embedding env search_query
      | some e => (e, [])
    let results := match env.raptorSearchE search_query emb top with
      | Except.ok docs => docs
      | Except.error _ => []
    ((results, results.map mkRaptorCitation), tr0 ++ [CallEvent.raptorSearch])
  else (([], []), [])

/-- unified_retriever.py `execute_sql_route` (lines 366-380). -/
def execute_sql_route (env : Env) (query : String) (sql_hint : Option String) :
    RetrievalResult × List CallEvent :=
  let ((results, sql, citations), tr0) := query_sql env query sql_hint
  let answer := env.synthesize query (SynthCtx.sqlCtx results) "SQL"
  ({ answer := answer
     route := "SQL"
     reasoning := "Query requires precise structured data"
     citations := citations
     sql_results := some results
     sql_query := some sql }, tr0 ++ [CallEvent.synth])

/-- unified_retriever.py `execute_semantic_route` (lines 382-404). -/
def execute_semantic_route (env : Env) (query : String) :
    RetrievalResult × List CallEvent :=
  let ((results, citations), tr0) := query_semantic env query 5 none
  let answer := env.synthesize query (SynthCtx.semanticCtx results) "SEMANTIC"
  ({ answer := answer
     route := "SEMANTIC"
     reasoning := "Query requires semantic understanding/similarity"
     citations := citations
     semantic_results := some results }, tr0 ++ [CallEvent.synth])

/-- unified_retriever.py `execute_raptor_route` (lines 406-422): macro-only
retrieval; note that an unconfigured or failing macro backend simply yields an
empty result set here, with no change of strategy. -/
def execute_raptor_route (env : Env) (query : String) (topics : List String) :
    RetrievalResult × List CallEvent :=
  let ((results, citations), tr0) := query_raptor env query topics 3 none
  let answer := env.synthesize query
    (SynthCtx.raptorCtx (results.map (fun r => pyTake r.raw 500))) "RAPTOR"
  ({ answer := answer
     route := "RAPTOR"
     reasoning := "Query is about macro/economic context"
     citations := citations
     raptor_results := some results }, tr0 ++ [CallEvent.synth])

/-- unified_retriever.py `execute_semantic_raptor_route` (lines 424-480):
embed once, fan out to the semantic and macro indexes with the shared vector,
merge citations as the first four semantic then the first three macro. -/
def execute_semantic_raptor_route (env : Env) (query : String)
    (raptor_topics : List String) : RetrievalResult × List CallEvent :=
  let (query_embedding, tr0) := get_embedding env query
  let ((semantic_results, semantic_citations), tr1) :=
    query_semantic env query 5 (some query_embedding)
  let ((raptor_results, raptor_citations), tr2) :=
    query_raptor env query raptor_topics 3 (some query_embedding)
  let answer := env.synthesize query
    (SynthCtx.semRaptorCtx semantic_results
      (raptor_results.map (fun r => pyTake r.raw 400))) "SEMANTIC_RAPTOR"
  ({ answer := answer
     route := "SEMANTIC_RAPTOR"
     reasoning := "Query combines fund style matching with macro economic context"
     citations := semantic_citations.take 4 ++ raptor_citations.take 3
     semantic_results := some semantic_results
     raptor_results := some raptor_results }, tr0 ++ tr1 ++ tr2 ++ [CallEvent.synth])

/-- unified_retriever.py `execute_hybrid_route` (lines 482-539): embed once,
fan out to all three backends with the shared vector (semantic top 3, macro
top 2), merge citations as the first five structured, then the first three
semantic, then the first two macro. -/
def execute_hybrid_route (env : Env) (query : String) (sql_hint : Option String)
    (raptor_topics : List String) : RetrievalResult × List CallEvent :=
  let (query_embedding, tr0) := get_embedding env query
  let ((sql_results, sql_query, sql_citations), tr1) := query_sql env query sql_hint
  let ((semantic_results, semantic_citations), tr2) :=
    query_semantic env query 3 (some query_embedding)
  let ((raptor_results, raptor_citations), tr3) :=
    query_raptor env query raptor_topics 2 (some query_embedding)
  let answer := env.synthesize query
    (SynthCtx.hybridCtx (sql_results.take 10)
      (semantic_results.map (fun r => pyTake r.content 200))
      (raptor_results.map (fun r => pyTake r.raw 300))) "HYBRID"
  ({ answer := answer
     route := "HYBRID"
     reasoning := "Query requires both fund data and macro context"
     citations := sql_citations.take 5 ++ semantic_citations.take 3 ++ raptor_citations.take 2
     sql_results := some sql_results
     semantic_results := some semantic_results
     raptor_results := some raptor_results
     sql_query := some sql_query }, tr0 ++ tr1 ++ tr2 ++ tr3 ++ [CallEvent.synth])

/-- unified_retriever.py `execute_chain_route` (lines 541-620): query the
macro index first; on an empty macro result fall back to the whole HYBRID
strategy; otherwise derive fund-selection criteria from the macro context,
re-query the structured and semantic backends with the augmented question,
and merge citations macro-first.  Progress callbacks carry no data into the
result and are not modelled. -/
def execute_chain_route (env : Env) (query : String) (raptor_topics : List String) :
    RetrievalResult × List CallEvent :=
  let ((raptor_results, raptor_citations), tr0) := query_raptor env query raptor_topics 3 none
  if raptor_results.isEmpty then
    let (res, tr1) := execute_hybrid_route env query none []
    (res, tr0 ++ tr1)
  else
    let macro_context := "\n".intercalate (raptor_results.map (fun r => pyTake r.raw 500))
    let criteria := env.criteriaLlm query macro_context
    let fund_query := query ++ "\n\nBased on analysis: " ++ criteria
    let ((sql_results, sql_query, sql_citations), tr1) := query_sql env fund_query none
    let ((semantic_results, semantic_citations), tr2) := query_semantic env fund_query 3 none
    let answer := env.synthesize query
      (SynthCtx.chainCtx (pyTake macro_context 1000) criteria (sql_results.take 10)
        (semantic_results.map (fun r => pyTake r.content 200))) "CHAIN"
    ({ answer := answer
       route := "CHAIN"
       reasoning := "Macro context drives fund selection"
       citations := raptor_citations ++ sql_citations.take 5 ++ semantic_citations.take 2
       sql_results := some sql_results
       semantic_results := some semantic_results
       raptor_results := some raptor_results
       sql_query := some sql_query },
     tr0 ++ [CallEvent.criteriaLlm] ++ tr1 ++ tr2 ++ [CallEvent.synth])

/-- unified_retriever.py `answer` lines 671-704: classify (via the LLM or the
keyword heuristic), then dispatch on the route label, every unrecognized
label falling to the HYBRID executor, and overwrite the result reasoning with
the classifier reasoning.  An error from the LLM classifier propagates. -/
def route_and_execute (env : Env) (query : String) (use_llm_routing : Bool) :
    Except String RetrievalResult × List CallEvent :=
  let (route_result, trR) :=
    if use_llm_routing then (QueryRouter.route (env.llmReply query), [CallEvent.classify])
    else (Except.ok { route := some (QueryRouter.quick_route query)
                      reasoning := some "Heuristic routing" }, [])
  match route_result with
  | Except.error e => (Except.error e, trR)
  | Except.ok rr =>
    let route := rr.route.getD "HYBRID"
    let sql_hint := rr.sql_hint
    let raptor_topics := rr.raptor_topics.getD []
    let (result, trX) :=
      if route = "SQL" then execute_sql_route env query sql_hint
      else if route = "SEMANTIC" then execute_semantic_route env query
      else if route = "RAPTOR" then execute_raptor_route env query raptor_topics
      else if route = "SEMANTIC_RAPTOR" then execute_semantic_raptor_route env query raptor_topics
      else if route = "CHAIN" then execute_chain_route env query raptor_topics
      else execute_hybrid_route env query sql_hint raptor_topics
    (Except.ok { result with reasoning := rr.reasoning.getD result.reasoning }, trR ++ trX)

/-- unified_retriever.py `answer` (lines 640-704): the PII gate runs first
when the filter is enabled, and a flagged query short-circuits into a BLOCKED
result before any classification, retrieval or synthesis. -/
def answer (env : Env) (query : String) (use_llm_routing : Bool) :
    Except String RetrievalResult × List CallEvent :=
  if env.piiEnabled then
    let pii_result := PiiFilter.check env.confidence_threshold query (env.piiOutcome query)
    if pii_result.has_pii then
      let warning := PiiFilter.format_warning pii_result.entities
      (Except.ok { answer := warning
                   route := "BLOCKED"
                   reasoning := "Query contains personally identifiable information"
                   pii_blocked := true
                   pii_warning := some warning }, [CallEvent.piiCheck])
    else
      let (res, tr) := route_and_execute env query use_llm_routing
      (res, CallEvent.piiCheck :: tr)
  else route_and_execute env query use_llm_routing

end UnifiedRetriever

/-
Concrete data and environments used to instantiate the theorems below.
-/

/-- A high-confidence social-security-number entity, as the PII service
reports for the sample prompt of the pii_filter self-test. -/
def sampleEntity : PiiEntity :=
  { text := "123-45-6789", category := "USSocialSecurityNumber",
    offset := 10, length := 11, confidence_score := 1 }

/-- A service reply document carrying the sample entity. -/
def sampleDoc : AzureDoc := { entities := [sampleEntity] }

/-- One structured row as the fund database returns it. -/
def sampleRow : SqlRow :=
  { accession_number := some "0001", series_name := some "Fund A", rowRepr := "row data" }

/-- One semantic-index document. -/
def sampleSemDoc : SemDoc :=
  { fund_name := "Fund A", accession_number := "0001", content := "a bond fund", score := 1 }

/-- A baseline environment: PII filter disabled, working structured and
semantic backends, RAPTOR index unconfigured (construction failed, so
has_raptor is false, as in unified_retriever.py lines 126-136). -/
def envBase : Env :=
  { piiEnabled := false
    confidence_threshold := 1
    piiOutcome := fun _ => PiiServiceOutcome.timeout
    llmReply := fun _ => LlmRouteReply.parsed { route := some "HYBRID", reasoning := some "combined" }
    sqlGenerate := fun _ => "SELECT series_name FROM fund_reported_info"
    sqlExec := fun _ => Except.ok [sampleRow]
    fundSearch := fun _ _ _ => [sampleSemDoc]
    has_raptor := false
    raptorSearchE := fun _ _ _ => Except.ok []
    embedFn := fun _ => [1, 0]
    synthesize := fun _ _ _ => "synthesized answer"
    criteriaLlm := fun _ _ => "favor short duration bond funds" }

/-- The baseline environment with the PII filter enabled and a service that
flags the sample entity on every text. -/
def envPii : Env :=
  { envBase with
    piiEnabled := true
    piiOutcome := fun _ =>
      PiiServiceOutcome.reply { kind := "PiiEntityRecognitionResults", documents := [sampleDoc] } }

/-- The baseline environment with the PII filter enabled but its service
timing out on every request. -/
def envPiiDown : Env := { envBase with piiEnabled := true }

/-- The baseline environment with a classifier LLM whose reply json.loads
cannot parse. -/
def envBadLlm : Env :=
  { envBase with llmReply := fun _ => LlmRouteReply.unparseable "not json" }

/-- The baseline environment with a classifier LLM whose reply carries a
reasoning but no route field. -/
def envNoRouteLlm : Env :=
  { envBase with llmReply := fun _ =>
      LlmRouteReply.parsed { reasoning := some "macro driven" } }

/-- The baseline environment with a classifier LLM whose reply carries a
route but no reasoning field. -/
def envNoReasonLlm : Env :=
  { envBase with llmReply := fun _ =>
      LlmRouteReply.parsed { route := some "SQL" } }

/-- The baseline environment with a classifier LLM that returns a route label
outside the recognized set. -/
def envFoundryLlm : Env :=
  { envBase with llmReply := fun _ =>
      LlmRouteReply.parsed { route := some "FOUNDRY_IQ", reasoning := some "external agent" } }

/-
Theorems.
-/

/-- Claim C2: for every threshold and input text, a PII-service round-trip
that times out or cannot connect yields a not-blocked check result
(has_pii = false): the gate fails open instead of denying traffic, and
answer() proceeds into classification and retrieval, its trace being the PII
check followed by the normal routed execution. -/
theorem pii_check_fails_open (t : Rat) (text : String) (env : Env) (b : Bool)
    (hen : env.piiEnabled = true)
    (hout : env.piiOutcome text = PiiServiceOutcome.timeout ∨
            env.piiOutcome text = PiiServiceOutcome.connectionError) :
    (PiiFilter.check t text PiiServiceOutcome.timeout).has_pii = false ∧
    (PiiFilter.check t text PiiServiceOutcome.connectionError).has_pii = false ∧
    UnifiedRetriever.answer env text b
      = ((UnifiedRetriever.route_and_execute env text b).fst,
         CallEvent.piiCheck :: (UnifiedRetriever.route_and_execute env text b).snd) := by
  have hfp : ∀ oc, oc = PiiServiceOutcome.timeout ∨ oc = PiiServiceOutcome.connectionError →
      ∀ u : Rat, (PiiFilter.check u text oc).has_pii = false := by
    intro oc hoc u
    rcases hoc with rfl | rfl <;> · unfold PiiFilter.check; split <;> rfl
  refine ⟨hfp _ (Or.inl rfl) t, hfp _ (Or.inr rfl) t, ?_⟩
  simp [UnifiedRetriever.answer, hen, hfp _ hout]

/-- Witness for C2 on the concrete environment whose PII service times out:
the request is not blocked and proceeds through routing. -/
theorem pii_check_fails_open_witness :
    envPiiDown.piiEnabled = true ∧
    envPiiDown.piiOutcome "Top bond funds" = PiiServiceOutcome.timeout ∧
    ((PiiFilter.check 1 "Top bond funds" PiiServiceOutcome.timeout).has_pii = false ∧
     (PiiFilter.check 1 "Top bond funds" PiiServiceOutcome.connectionError).has_pii = false ∧
     UnifiedRetriever.answer envPiiDown "Top bond funds" false
       = ((UnifiedRetriever.route_and_execute envPiiDown "Top bond funds" false).fst,
          CallEvent.piiCheck ::
            (UnifiedRetriever.route_and_execute envPiiDown "Top bond funds" false).snd)) :=
  ⟨rfl, rfl,
    pii_check_fails_open 1 "Top bond funds" envPiiDown false rfl (Or.inl rfl)⟩

/-- Claim C3 (divergence record): the heuristic classifier maps four of the
five listed fixtures to the claimed routes, but maps the fixture
"Best bond funds given current rate environment" to SQL, not HYBRID: none of
its macro keywords occur in that query, so control falls through to the
generic fund-keyword default.  The repository test fixtures
(query_router.py line 202, unified_retriever.py line 782) expect HYBRID. -/
theorem quick_route_fixture_divergence :
    QueryRouter.quick_route "Top 5 largest bond funds" = "SQL" ∧
    QueryRouter.quick_route "Funds similar to Vanguard 500" = "SEMANTIC" ∧
    QueryRouter.quick_route "What is the inflation outlook?" = "RAPTOR" ∧
    QueryRouter.quick_route "How should I position my portfolio if inflation rises?" = "CHAIN" ∧
    QueryRouter.quick_route "Best bond funds given current rate environment" = "SQL" := by
  refine ⟨?_, ?_, ?_, ?_, ?_⟩ <;> decide

/-- Claim C9: on a successful, well-formed PII-service reply over non-blank
text, the gate flags the text exactly when the first reply document contains
an entity whose confidence is at least the threshold and whose category is in
the fixed 14-entry banking-relevant list. -/
theorem pii_flag_iff_banking_entity (t : Rat) (text : String) (d : AzureDoc)
    (rest : List AzureDoc) (htext : allWhitespace text = false) :
    ((PiiFilter.check t text
        (PiiServiceOutcome.reply
          { kind := "PiiEntityRecognitionResults", documents := d :: rest })).has_pii = true
      ↔ ∃ e ∈ d.entities, t ≤ e.confidence_score ∧ e.category ∈ BANKING_PII_CATEGORIES)
    ∧ BANKING_PII_CATEGORIES.length = 14 := by
  refine ⟨?_, rfl⟩
  simp [PiiFilter.check, htext, List.length_pos_iff_exists_mem, List.mem_filter]

/-- Witness for C9 at a concrete reply: one SSN entity at confidence 1 with
threshold 1 flags the text. -/
theorem pii_flag_iff_banking_entity_witness :
    ((PiiFilter.check 1 "My SSN is 123-45-6789"
        (PiiServiceOutcome.reply
          { kind := "PiiEntityRecognitionResults", documents := sampleDoc :: [] })).has_pii = true
      ↔ ∃ e ∈ sampleDoc.entities, (1 : Rat) ≤ e.confidence_score
          ∧ e.category ∈ BANKING_PII_CATEGORIES)
    ∧ BANKING_PII_CATEGORIES.length = 14 :=
  pii_flag_iff_banking_entity 1 "My SSN is 123-45-6789" sampleDoc [] (by decide)

/-- Claim C1: whenever the enabled safety gate flags the query, answer()
returns exactly the blocked result: pii_blocked true, route BLOCKED, empty
citations, no structured query string, and the invocation trace is the single
PII check, so neither the classifier nor any backend nor the synthesis
collaborator is invoked. -/
theorem answer_blocks_pii_short_circuit (env : Env) (query : String) (use_llm : Bool)
    (hen : env.piiEnabled = true)
    (hp : (PiiFilter.check env.confidence_threshold query (env.piiOutcome query)).has_pii = true) :
    UnifiedRetriever.answer env query use_llm =
      (Except.ok
        { answer := PiiFilter.format_warning
            (PiiFilter.check env.confidence_threshold query (env.piiOutcome query)).entities
          route := "BLOCKED"
          reasoning := "Query contains personally identifiable information"
          citations := []
          sql_results := none
          semantic_results := none
          raptor_results := none
          sql_query := none
          pii_blocked := true
          pii_warning := some (PiiFilter.format_warning
            (PiiFilter.check env.confidence_threshold query (env.piiOutcome query)).entities) },
       [CallEvent.piiCheck]) := by
  unfold UnifiedRetriever.answer
  simp [hen, hp]

/-- Witness for C1 on a concrete environment whose PII service flags an SSN
entity in the query. -/
theorem answer_blocks_pii_short_circuit_witness :
    envPii.piiEnabled = true ∧
    (PiiFilter.check envPii.confidence_threshold "My SSN is 123-45-6789"
        (envPii.piiOutcome "My SSN is 123-45-6789")).has_pii = true ∧
    UnifiedRetriever.answer envPii "My SSN is 123-45-6789" true =
      (Except.ok
        { answer := PiiFilter.format_warning
            (PiiFilter.check envPii.confidence_threshold "My SSN is 123-45-6789"
              (envPii.piiOutcome "My SSN is 123-45-6789")).entities
          route := "BLOCKED"
          reasoning := "Query contains personally identifiable information"
          citations := []
          sql_results := none
          semantic_results := none
          raptor_results := none
          sql_query := none
          pii_blocked := true
          pii_warning := some (PiiFilter.format_warning
            (PiiFilter.check envPii.confidence_threshold "My SSN is 123-45-6789"
              (envPii.piiOutcome "My SSN is 123-45-6789")).entities) },
       [CallEvent.piiCheck]) :=
  ⟨rfl, by decide,
    answer_blocks_pii_short_circuit envPii "My SSN is 123-45-6789" true rfl (by decide)⟩

/-- Claim C4: for any backend result set, query_sql produces at most ten
citations, all of structured type; and the hybrid executor merges exactly the
first five structured, then the first three semantic, then the first two
macro citations, in that fixed order (the model is deterministic in the
environment, so backend arrival order cannot affect it), for at most ten
citations in total. -/
theorem citation_caps_structured_and_hybrid (env : Env) (query : String)
    (sql_hint : Option String) (raptor_topics : List String) :
    ((UnifiedRetriever.query_sql env query sql_hint).fst.2.2.length ≤ 10 ∧
      ∀ c ∈ (UnifiedRetriever.query_sql env query sql_hint).fst.2.2, c.source_type = "SQL") ∧
    ((UnifiedRetriever.execute_hybrid_route env query sql_hint raptor_topics).fst.citations
      = (UnifiedRetriever.query_sql env query sql_hint).fst.2.2.take 5
        ++ (UnifiedRetriever.query_semantic env query 3
              (some (UnifiedRetriever.get_embedding env query).fst)).fst.2.take 3
        ++ (UnifiedRetriever.query_raptor env query raptor_topics 2
              (some (UnifiedRetriever.get_embedding env query).fst)).fst.2.take 2 ∧
      (UnifiedRetriever.execute_hybrid_route env query sql_hint raptor_topics).fst.citations.length
        ≤ 10) := by
  have hsql : (UnifiedRetriever.query_sql env query sql_hint).fst.2.2.length ≤ 10 ∧
      ∀ c ∈ (UnifiedRetriever.query_sql env query sql_hint).fst.2.2, c.source_type = "SQL" := by
    rcases h : env.sqlExec (env.sqlGenerate (match sql_hint with
      | some hint => query ++ "\nHint: " ++ hint
      | none => query)) with e | rows
    · constructor
      · simp [UnifiedRetriever.query_sql, h]
      · intro c hc
        simp [UnifiedRetriever.query_sql, h] at hc
    · constructor
      · simp [UnifiedRetriever.query_sql, h, List.length_take]
      · intro c hc
        simp [UnifiedRetriever.query_sql, h] at hc
        obtain ⟨p, q, hpq, rfl⟩ := hc
        rfl
  refine ⟨hsql, rfl, ?_⟩
  show ((UnifiedRetriever.query_sql env query sql_hint).fst.2.2.take 5
      ++ (UnifiedRetriever.query_semantic env query 3
            (some (UnifiedRetriever.get_embedding env query).fst)).fst.2.take 3
      ++ (UnifiedRetriever.query_raptor env query raptor_topics 2
            (some (UnifiedRetriever.get_embedding env query).fst)).fst.2.take 2).length ≤ 10
  simp [List.length_take]
  omega

/-- Helper: the macro-index query only ever invokes the embedding service and
the RAPTOR search; in particular it never touches the structured or semantic
backends. -/
theorem query_raptor_trace_events (env : Env) (query : String) (topics : List String)
    (top : Nat) (embedding : Option (List Rat)) :
    ∀ e ∈ (UnifiedRetriever.query_raptor env query topics top embedding).snd,
      e = CallEvent.embed ∨ e = CallEvent.raptorSearch := by
  intro e he
  unfold UnifiedRetriever.query_raptor at he
  by_cases hr : env.has_raptor
  · simp [hr] at he
    cases embedding with
    | none => simp [UnifiedRetriever.get_embedding] at he; tauto
    | some v => simp at he; tauto
  · simp [hr] at he

/-- Claim C5 counterexample: with the macro backend unconfigured
(has_raptor false), the MACRO executor does not run the HYBRID strategy: it
returns a macro-route result built from the empty result set (route RAPTOR,
no citations, empty raptor_results), and its only collaborator call is the
synthesis LLM, whereas the HYBRID strategy would have produced a
HYBRID-route result. -/
theorem raptor_route_no_hybrid_fallback_cex :
    (UnifiedRetriever.execute_raptor_route envBase "What is the inflation outlook?" []).fst.route
        = "RAPTOR" ∧
    (UnifiedRetriever.execute_raptor_route envBase "What is the inflation outlook?" []).fst.citations
        = [] ∧
    (UnifiedRetriever.execute_raptor_route envBase "What is the inflation outlook?" []).fst.raptor_results
        = some [] ∧
    (UnifiedRetriever.execute_raptor_route envBase "What is the inflation outlook?" []).snd
        = [CallEvent.synth] ∧
    (UnifiedRetriever.execute_hybrid_route envBase "What is the inflation outlook?" none []).fst.route
        = "HYBRID" :=
  ⟨rfl, rfl, rfl, rfl, rfl⟩

/-- Claim C5 as amended: when the macro backend is unconfigured or
unavailable (its query yields the empty result set), the MACRO executor does
not fail: it returns a macro-route result with route RAPTOR, an empty
citation list and an empty macro result set, and it never invokes the
structured or semantic backends — it does not degrade to the HYBRID
strategy (only the CHAIN strategy falls back to HYBRID on an empty macro
stage). -/
theorem raptor_route_empty_backend_macro_only (env : Env) (query : String)
    (topics : List String)
    (h : (UnifiedRetriever.query_raptor env query topics 3 none).fst = ([], [])) :
    (UnifiedRetriever.execute_raptor_route env query topics).fst.route = "RAPTOR" ∧
    (UnifiedRetriever.execute_raptor_route env query topics).fst.citations = [] ∧
    (UnifiedRetriever.execute_raptor_route env query topics).fst.raptor_results = some [] ∧
    CallEvent.sqlExec ∉ (UnifiedRetriever.execute_raptor_route env query topics).snd ∧
    CallEvent.fundSearch ∉ (UnifiedRetriever.execute_raptor_route env query topics).snd := by
  have htr := query_raptor_trace_events env query topics 3 none
  rcases hq : UnifiedRetriever.query_raptor env query topics 3 none with ⟨⟨rres, rcits⟩, tr0⟩
  rw [hq] at h htr
  injection h with h1 h2
  subst h1; subst h2
  have hnot : ∀ ev : CallEvent, ev ≠ CallEvent.embed → ev ≠ CallEvent.raptorSearch →
      ev ≠ CallEvent.synth →
      ev ∉ (UnifiedRetriever.execute_raptor_route env query topics).snd := by
    intro ev hne hnr hns hmem
    simp [UnifiedRetriever.execute_raptor_route, hq] at hmem
    rcases hmem with hmem | hmem
    · rcases htr _ hmem with h3 | h3 <;> simp_all
    · simp_all
  refine ⟨?_, ?_, ?_, hnot _ (by simp) (by simp) (by simp),
      hnot _ (by simp) (by simp) (by simp)⟩ <;>
    simp [UnifiedRetriever.execute_raptor_route, hq]

/-- Witness for the amended C5 at the concrete unconfigured-RAPTOR
environment. -/
theorem raptor_route_empty_backend_macro_only_witness :
    (UnifiedRetriever.query_raptor envBase "inflation outlook" [] 3 none).fst = ([], []) ∧
    ((UnifiedRetriever.execute_raptor_route envBase "inflation outlook" []).fst.route = "RAPTOR" ∧
     (UnifiedRetriever.execute_raptor_route envBase "inflation outlook" []).fst.citations = [] ∧
     (UnifiedRetriever.execute_raptor_route envBase "inflation outlook" []).fst.raptor_results
        = some [] ∧
     CallEvent.sqlExec ∉ (UnifiedRetriever.execute_raptor_route envBase "inflation outlook" []).snd ∧
     CallEvent.fundSearch ∉ (UnifiedRetriever.execute_raptor_route envBase "inflation outlook" []).snd) :=
  ⟨rfl, raptor_route_empty_backend_macro_only envBase "inflation outlook" [] rfl⟩

/-- Claim C6: when the first CHAIN stage (the macro query) returns no
documents, the CHAIN executor returns exactly the result of running the
HYBRID strategy on the same question, and the recorded route of that result
is HYBRID, reflecting the fallback. -/
theorem chain_empty_macro_full_hybrid_fallback (env : Env) (query : String)
    (raptor_topics : List String)
    (h : (UnifiedRetriever.query_raptor env query raptor_topics 3 none).fst.fst = []) :
    (UnifiedRetriever.execute_chain_route env query raptor_topics).fst
      = (UnifiedRetriever.execute_hybrid_route env query none []).fst ∧
    (UnifiedRetriever.execute_chain_route env query raptor_topics).fst.route = "HYBRID" := by
  rcases hq : UnifiedRetriever.query_raptor env query raptor_topics 3 none with ⟨⟨rres, rcits⟩, tr0⟩
  rw [hq] at h
  simp only at h
  subst h
  have hfall : (UnifiedRetriever.execute_chain_route env query raptor_topics).fst
      = (UnifiedRetriever.execute_hybrid_route env query none []).fst := by
    simp [UnifiedRetriever.execute_chain_route, hq]
  exact ⟨hfall, by rw [hfall]; rfl⟩

/-- Witness for C6 at the concrete unconfigured-RAPTOR environment, where the
macro stage is empty. -/
theorem chain_empty_macro_full_hybrid_fallback_witness :
    (UnifiedRetriever.query_raptor envBase "Position for the IMF outlook" [] 3 none).fst.fst = [] ∧
    ((UnifiedRetriever.execute_chain_route envBase "Position for the IMF outlook" []).fst
        = (UnifiedRetriever.execute_hybrid_route envBase "Position for the IMF outlook" none []).fst ∧
     (UnifiedRetriever.execute_chain_route envBase "Position for the IMF outlook" []).fst.route
        = "HYBRID") :=
  ⟨rfl, chain_empty_macro_full_hybrid_fallback envBase "Position for the IMF outlook" [] rfl⟩

/-- Claim C7: for every environment and question, the HYBRID and
SEMANTIC_RAPTOR fan-out executors invoke the embedding collaborator exactly
once; the single precomputed vector is what both the semantic and macro
search branches receive (they are called with `some` of it, so neither
branch recomputes). -/
theorem fanout_embeds_exactly_once (env : Env) (query : String)
    (sql_hint : Option String) (raptor_topics : List String) :
    countEmbed (UnifiedRetriever.execute_hybrid_route env query sql_hint raptor_topics).snd = 1 ∧
    countEmbed (UnifiedRetriever.execute_semantic_raptor_route env query raptor_topics).snd = 1 := by
  constructor <;>
  · by_cases hr : env.has_raptor <;>
      simp [UnifiedRetriever.execute_hybrid_route, UnifiedRetriever.execute_semantic_raptor_route,
        UnifiedRetriever.query_sql, UnifiedRetriever.query_semantic, UnifiedRetriever.query_raptor,
        UnifiedRetriever.get_embedding, countEmbed, hr]

/-- Claim C8 counterexample: with a classifier reply that json.loads cannot
parse, answer() in model-assisted mode does not fall back to the heuristic
and does not complete — the parse error propagates out of the request, the
trace stopping at the classifier call. -/
theorem unparseable_reply_crashes_request_cex :
    (UnifiedRetriever.answer envBadLlm "Top 5 largest bond funds" true).fst
        = Except.error "json.decoder.JSONDecodeError" ∧
    (UnifiedRetriever.answer envBadLlm "Top 5 largest bond funds" true).snd
        = [CallEvent.classify] :=
  ⟨rfl, rfl⟩

/-- Claim C8 as amended: (1) every parsed classifier reply missing the route
field — whatever its other fields hold — makes answer() dispatch the HYBRID
executor, the hint and topics taken from the reply and the reasoning
defaulted only when itself absent; (2) every parsed reply missing the
reasoning field — whatever route it names — yields a result whose reasoning
is the fixed placeholder; (3) every reply that cannot be parsed raises a
parse error that propagates uncaught out of answer() whenever the safety
gate does not block, with no fallback to heuristic mode. -/
theorem llm_reply_defaulting :
    (∀ (env : Env) (query : String) (g : RoutingDecision),
        env.piiEnabled = false → env.llmReply query = LlmRouteReply.parsed g →
        g.route = none →
        (UnifiedRetriever.answer env query true).fst
          = Except.ok { (UnifiedRetriever.execute_hybrid_route env query g.sql_hint
                            (g.raptor_topics.getD [])).fst with
                        reasoning := g.reasoning.getD "Default routing" }) ∧
    (∀ (env : Env) (query : String) (g : RoutingDecision),
        env.piiEnabled = false → env.llmReply query = LlmRouteReply.parsed g →
        g.reasoning = none →
        (UnifiedRetriever.answer env query true).fst.toOption.map
            (fun r => r.reasoning) = some "Default routing") ∧
    (∀ (env : Env) (query : String) (raw : String),
        env.llmReply query = LlmRouteReply.unparseable raw →
        (env.piiEnabled = false ∨
          (PiiFilter.check env.confidence_threshold query (env.piiOutcome query)).has_pii
            = false) →
        (UnifiedRetriever.answer env query true).fst
          = Except.error "json.decoder.JSONDecodeError") := by
  refine ⟨?_, ?_, ?_⟩
  · intro env query g hpii hrep hroute
    simp [UnifiedRetriever.answer, hpii, UnifiedRetriever.route_and_execute, hrep,
      QueryRouter.route, hroute]
  · intro env query g hpii hrep hreason
    simp [UnifiedRetriever.answer, hpii, UnifiedRetriever.route_and_execute, hrep,
      QueryRouter.route, hreason]
    exact ⟨_, rfl, rfl⟩
  · intro env query raw hrep hgate
    rcases hgate with hpii | hsafe
    · simp [UnifiedRetriever.answer, hpii, UnifiedRetriever.route_and_execute, hrep,
        QueryRouter.route]
    · by_cases hpii : env.piiEnabled <;>
        simp [UnifiedRetriever.answer, hpii, hsafe, UnifiedRetriever.route_and_execute,
          hrep, QueryRouter.route]

/-- Witness for the amended C8: a reply missing only the route dispatches
HYBRID and keeps its own reasoning; a reply missing only the reasoning gets
the placeholder; an unparseable reply makes answer() return the parse
error. -/
theorem llm_reply_defaulting_witness :
    ((UnifiedRetriever.answer envNoRouteLlm "Best funds now" true).fst
        = Except.ok
            { (UnifiedRetriever.execute_hybrid_route envNoRouteLlm "Best funds now" none []).fst
              with reasoning := "macro driven" }) ∧
    ((UnifiedRetriever.answer envNoReasonLlm "Best funds now" true).fst.toOption.map
        (fun r => r.reasoning) = some "Default routing") ∧
    ((UnifiedRetriever.answer envBadLlm "Best funds now" true).fst
        = Except.error "json.decoder.JSONDecodeError") :=
  ⟨llm_reply_defaulting.1 envNoRouteLlm "Best funds now"
      { reasoning := some "macro driven" } rfl rfl rfl,
    llm_reply_defaulting.2.1 envNoReasonLlm "Best funds now"
      { route := some "SQL" } rfl rfl rfl,
    llm_reply_defaulting.2.2 envBadLlm "Best funds now" "not json" rfl (Or.inl rfl)⟩

/-- Claim C10: a routing decision whose route label is none of the five
recognized non-default labels — whatever string the classifier produced —
makes answer() dispatch the HYBRID executor and complete normally. -/
theorem unknown_route_label_dispatches_hybrid (env : Env)
    (query label reason_text : String)
    (hpii : env.piiEnabled = false)
    (hrep : env.llmReply query
        = LlmRouteReply.parsed { route := some label, reasoning := some reason_text })
    (h1 : label ≠ "SQL") (h2 : label ≠ "SEMANTIC") (h3 : label ≠ "RAPTOR")
    (h4 : label ≠ "SEMANTIC_RAPTOR") (h5 : label ≠ "CHAIN") :
    (UnifiedRetriever.answer env query true).fst
      = Except.ok { (UnifiedRetriever.execute_hybrid_route env query none []).fst with
                    reasoning := reason_text } := by
  simp [UnifiedRetriever.answer, hpii, UnifiedRetriever.route_and_execute, hrep,
    QueryRouter.route, h1, h2, h3, h4, h5]

/-- Witness for C10 at a concrete unrecognized label (FOUNDRY_IQ, a label the
surrounding API layer uses but the retriever does not recognize). -/
theorem unknown_route_label_dispatches_hybrid_witness :
    envFoundryLlm.piiEnabled = false ∧
    envFoundryLlm.llmReply "Best funds now"
      = LlmRouteReply.parsed { route := some "FOUNDRY_IQ", reasoning := some "external agent" } ∧
    (UnifiedRetriever.answer envFoundryLlm "Best funds now" true).fst
      = Except.ok { (UnifiedRetriever.execute_hybrid_route envFoundryLlm "Best funds now" none []).fst
                    with reasoning := "external agent" } :=
  ⟨rfl, rfl,
    unknown_route_label_dispatches_hybrid envFoundryLlm "Best funds now" "FOUNDRY_IQ"
      "external agent" rfl rfl (by decide) (by decide) (by decide) (by decide) (by decide)⟩
